import Mathlib

/-!
Shallow embedding of `websocket_probe.py` (WebSocket probe tool).

The probe engine is modelled as pure state-passing Lean functions:

* `Stats` mirrors the `self.stats` dictionary of `WebSocketProbe.__init__`.
  Latencies (wall-clock milliseconds computed from `time.time()` differences)
  are modelled as rationals; the `float('inf')` sentinel used for
  `min_response_time` is modelled as `none : Option ℚ`.
* `WebSocketProbe` carries the `connection` attribute (`None` until a
  successful `connect`) and the stats record.  The live connection object is
  modelled as a `Handle` with a `closed` flag, since the only operations the
  probe performs on it that matter here are `close()` (sets closed) and
  truthiness tests (`if not self.connection`, true exactly when the attribute
  is `None` — a connection object is always truthy in Python).
* Network nondeterminism (handshake result, reply arrival, measured latency)
  is passed in as an explicit outcome argument; each constructor corresponds
  to one `except` arm (or the success path) of the Python method.
-/

namespace WSProbe

/-- The `self.stats` dictionary of `WebSocketProbe.__init__`
(src/websocket_probe.py lines 81-90).  `min_response_time` is
`float('inf')` initially; `none` plays the role of the infinity sentinel. -/
structure Stats where
  connection_attempts : Nat
  successful_connections : Nat
  failed_connections : Nat
  messages_sent : Nat
  messages_received : Nat
  total_response_time : ℚ
  min_response_time : Option ℚ
  max_response_time : ℚ
deriving DecidableEq

/-- Initial stats: all counters zero, `min_response_time = float('inf')`. -/
def initStats : Stats :=
  { connection_attempts := 0
    successful_connections := 0
    failed_connections := 0
    messages_sent := 0
    messages_received := 0
    total_response_time := 0
    min_response_time := none
    max_response_time := 0 }

/-- Python `min` over floats where `none` stands for `float('inf')`:
`min(inf, x) = x`, `min(x, inf) = x`, `min(a, b)` otherwise. -/
def rtMin : Option ℚ → Option ℚ → Option ℚ
  | none, b => b
  | some a, none => some a
  | some a, some b => some (min a b)

/-- The live connection object stored in `self.connection`.  The only
state of it the probe observes is whether `close()` has been called. -/
structure Handle where
  closed : Bool
deriving DecidableEq

/-- A `WebSocketProbe` instance: `self.connection` (initially `None`) and
`self.stats`. -/
structure WebSocketProbe where
  connection : Option Handle
  stats : Stats
deriving DecidableEq

/-- A freshly constructed probe: `self.connection = None`, zeroed stats. -/
def initProbe : WebSocketProbe := { connection := none, stats := initStats }

/-- The attribute shape of an `InvalidStatus` exception, as probed by
`connect`'s handler (lines 183-186): `getattr(e, 'status_code', None)` and
`getattr(e, 'response', None)` followed by `.status_code` on the response
object.  `response_status` is the response object's `status_code` when the
`response` attribute is present (`none` when the attribute is absent). -/
structure InvalidStatusExc where
  status_code : Option Nat
  response_status : Option Nat
deriving DecidableEq

/-- Status-code extraction of `connect`'s `InvalidStatus` handler
(lines 183-186):
`status_code = getattr(e,'status_code',None) or getattr(e,'response',None)`,
then `.status_code` if the value has that attribute, then
`status_code or 'Unknown'`.  Python `or` falls through on falsy values, so a
literal `0` behaves like `None`; the final `or 'Unknown'` is modelled by
returning `none`. -/
def extractStatus (e : InvalidStatusExc) : Option Nat :=
  let v : Option Nat :=
    match e.status_code with
    | some n => if n ≠ 0 then some n else e.response_status
    | none => e.response_status
  match v with
  | some n => if n ≠ 0 then some n else none
  | none => none

/-- The canned guidance hints `connect` logs on failure (lines 190-207). -/
inductive ConnectHint where
  | plainHttpService
  | pathNotFound
  | accessDenied
  | needsAuth
  | upgradeFailed
deriving DecidableEq

/-- Hints keyed off the extracted status code (lines 190-198). -/
def statusHints : Option Nat → List ConnectHint
  | some 200 => [.plainHttpService]
  | some 404 => [.pathNotFound]
  | some 403 => [.accessDenied]
  | some 401 => [.needsAuth]
  | _ => []

/-- How a `connect()` attempt resolves: the success path or one of the four
`except` arms of `WebSocketProbe.connect` (lines 176-213). -/
inductive ConnectOutcome where
  | ok
  | timeout
  | invalidStatus (e : InvalidStatusExc)
  | invalidHandshake (mentionsUpgrade : Bool)
  | otherError
deriving DecidableEq

/-- `WebSocketProbe.connect` (lines 100-213).  Increments
`connection_attempts` first; on success stores the live handle and increments
`successful_connections`; every `except` arm increments `failed_connections`
and leaves `self.connection` untouched.  Returns the boolean result, the
updated probe and the guidance hints logged. -/
def connect (p : WebSocketProbe) (o : ConnectOutcome) :
    Bool × WebSocketProbe × List ConnectHint :=
  let st := { p.stats with connection_attempts := p.stats.connection_attempts + 1 }
  match o with
  | .ok =>
      (true,
       { connection := some { closed := false }
         stats := { st with successful_connections := st.successful_connections + 1 } },
       [])
  | .timeout =>
      (false,
       { p with stats := { st with failed_connections := st.failed_connections + 1 } },
       [])
  | .invalidStatus e =>
      (false,
       { p with stats := { st with failed_connections := st.failed_connections + 1 } },
       statusHints (extractStatus e))
  | .invalidHandshake mentionsUpgrade =>
      (false,
       { p with stats := { st with failed_connections := st.failed_connections + 1 } },
       if mentionsUpgrade then [.upgradeFailed] else [])
  | .otherError =>
      (false,
       { p with stats := { st with failed_connections := st.failed_connections + 1 } },
       [])

/-- How a `send_message` call resolves once a connection attribute is
present: `connection.send` itself raising, a reply-timeout, the connection
closing while waiting, another exception while waiting, or a reply measured
at `latencyMs` (lines 229-261). -/
inductive SendOutcome where
  | sendError
  | timeout
  | connectionClosed
  | recvError
  | success (latencyMs : ℚ)
deriving DecidableEq

/-- Stats update for a transmitted frame: `messages_sent += 1`
(line 233, executed right after `connection.send`, before the reply wait). -/
def recordSent (s : Stats) : Stats :=
  { s with messages_sent := s.messages_sent + 1 }

/-- Stats update for a received reply (lines 245-248): increments
`messages_received` and folds the latency into sum/min/max. -/
def recordReply (s : Stats) (rt : ℚ) : Stats :=
  { s with
    messages_received := s.messages_received + 1
    total_response_time := s.total_response_time + rt
    min_response_time := rtMin s.min_response_time (some rt)
    max_response_time := max s.max_response_time rt }

/-- `WebSocketProbe.send_message` (lines 215-261).  With no connection
attribute it logs and returns `None` at once; otherwise it sends (on
`sendError` the exception prevents the `messages_sent` increment), then
waits for one reply; the reply-wait failure arms return `None` with
`messages_sent` already incremented; on success it also increments
`messages_received`, folds the latency in, and returns it. -/
def send_message (p : WebSocketProbe) (o : SendOutcome) :
    Option ℚ × WebSocketProbe :=
  match p.connection with
  | none => (none, p)
  | some _ =>
      match o with
      | .sendError => (none, p)
      | .timeout => (none, { p with stats := recordSent p.stats })
      | .connectionClosed => (none, { p with stats := recordSent p.stats })
      | .recvError => (none, { p with stats := recordSent p.stats })
      | .success rt =>
          (some rt, { p with stats := recordReply (recordSent p.stats) rt })

/-- `WebSocketProbe.ping_test` (lines 263-288): fails fast without a
connection attribute, otherwise reports the transport's ping outcome; never
touches the stats dictionary. -/
def ping_test (p : WebSocketProbe) (pingOk : Bool) : Bool × WebSocketProbe :=
  match p.connection with
  | none => (false, p)
  | some _ => (pingOk, p)

/-- `WebSocketProbe.close` (lines 337-341): `if self.connection:
await self.connection.close()`.  Closes the underlying connection but does
not reset the `connection` attribute to `None`. -/
def close (p : WebSocketProbe) : WebSocketProbe :=
  match p.connection with
  | none => p
  | some h => { p with connection := some { h with closed := true } }

/-- One observable operation on a single session, with the environment's
resolution of its nondeterminism baked in. -/
inductive Op where
  | connectOp (o : ConnectOutcome)
  | sendOp (o : SendOutcome)
  | pingOp (ok : Bool)
  | closeOp
deriving DecidableEq

/-- Apply one operation to the session, discarding the returned value. -/
def step (p : WebSocketProbe) : Op → WebSocketProbe
  | .connectOp o => (connect p o).2.1
  | .sendOp o => (send_message p o).2
  | .pingOp ok => (ping_test p ok).2
  | .closeOp => close p

/-- Run a sequence of operations on a freshly constructed session. -/
def runOps (ops : List Op) : WebSocketProbe :=
  ops.foldl step initProbe

/-! ### Stress-test aggregation (`WebSocketProbeRunner.stress_test`) -/

/-- The per-key merge step of `stress_test`'s aggregation loop
(lines 473-482): every counter is summed, except `min_response_time`
(folded with `min` only when the incoming value is not `float('inf')`) and
`max_response_time` (folded with `max`). -/
def mergeStats (total r : Stats) : Stats :=
  { connection_attempts := total.connection_attempts + r.connection_attempts
    successful_connections := total.successful_connections + r.successful_connections
    failed_connections := total.failed_connections + r.failed_connections
    messages_sent := total.messages_sent + r.messages_sent
    messages_received := total.messages_received + r.messages_received
    total_response_time := total.total_response_time + r.total_response_time
    min_response_time :=
      match r.min_response_time with
      | none => total.min_response_time
      | some v => rtMin total.min_response_time (some v)
    max_response_time := max total.max_response_time r.max_response_time }

/-- One `single_test` trial of `stress_test` (lines 447-455): a fresh
probe, `connect`, on success one `send_message`, then `close` in the
`finally`, returning the probe's stats dictionary. -/
def single_test (co : ConnectOutcome) (so : SendOutcome) : Stats :=
  let p1 := (connect initProbe co).2.1
  let p2 := if (connect initProbe co).1 then (send_message p1 so).2 else p1
  (close p2).stats

/-- What `asyncio.gather(*tasks, return_exceptions=True)` hands back for one
trial: either the returned stats dictionary or the exception that escaped
the trial (carried as its message). -/
abbrev TrialResult : Type := Except String Stats

/-- One step of the aggregation loop of `stress_test` (lines 473-482):
a result is folded in by `mergeStats` when it is a dict
(`isinstance(result, dict)`); any other result — an exception captured by
`return_exceptions=True` — is skipped. -/
def stressFold (tot : Stats) (r : TrialResult) : Stats :=
  match r with
  | .ok st => mergeStats tot st
  | .error _ => tot

/-- The aggregation loop of `stress_test` (lines 462-482), starting from a
zeroed `total_stats`. -/
def aggregate (results : List TrialResult) : Stats :=
  results.foldl stressFold initStats

/-! ### Continuous mode (`WebSocketProbeRunner.continuous_probe`) -/

/-- The `while self.running:` loop of `continuous_probe` (lines 423-431),
abstracted over the sequence of values read from the shared `running` flag:
`f k` is the value of `self.running` at its `k`-th read.  Each iteration
reads the flag once as the loop guard, runs one probe cycle
(connect → ping → send → close), then reads the flag again to decide
whether to sleep for the interval.  Returns the number of completed probe
cycles and the number of sleeps performed.  `fuel` bounds the recursion;
every result below is independent of the fuel once it is positive. -/
def continuousLoop (f : Nat → Bool) : Nat → Nat → Nat × Nat
  | _, 0 => (0, 0)
  | idx, fuel + 1 =>
      if f idx then
        let sleeps := if f (idx + 1) then 1 else 0
        let rest := continuousLoop f (idx + 2) fuel
        (rest.1 + 1, rest.2 + sleeps)
      else
        (0, 0)

/-- Observable outcome of `continuous_probe` (lines 417-437): the cycle and
sleep counts of the loop, plus how many times the final stats report is
printed (`print_stats` runs once, in the `finally`). -/
structure ContinuousResult where
  cycles : Nat
  sleeps : Nat
  statsPrinted : Nat
deriving DecidableEq

/-- `WebSocketProbeRunner.continuous_probe`, over the flag-read trace `f`. -/
def continuous_probe (f : Nat → Bool) (fuel : Nat) : ContinuousResult :=
  { cycles := (continuousLoop f 0 fuel).1
    sleeps := (continuousLoop f 0 fuel).2
    statsPrinted := 1 }

/-! ### The URL rewrite of `http_probe` -/

/-- Whether `pat` is an initial segment of `s`. -/
def startsWithPat : List Char → List Char → Bool
  | [], _ => true
  | _ :: _, [] => false
  | a :: pat, b :: s => a = b && startsWithPat pat s

/-- Whether `pat` occurs as a contiguous substring of `s`. -/
def occursIn (pat : List Char) : List Char → Bool
  | [] => startsWithPat pat []
  | c :: rest => startsWithPat pat (c :: rest) || occursIn pat rest

/-- Python `s.replace(old, new)` for a nonempty `old`: scans left to right,
replacing each (non-overlapping) occurrence of `old` with `new`.  The fuel
is the number of characters still allowed to be consumed; each step consumes
at least one character, so `s.length` fuel is always enough (see
`strReplace`). -/
def strReplaceFuel (old new : List Char) : Nat → List Char → List Char
  | 0, s => s
  | _ + 1, [] => []
  | fuel + 1, c :: rest =>
      if startsWithPat old (c :: rest) then
        new ++ strReplaceFuel old new fuel ((c :: rest).drop old.length)
      else
        c :: strReplaceFuel old new fuel rest

/-- Python `s.replace(old, new)`.  An empty `old` makes Python interleave
`new` around every character; both call sites below use nonempty patterns. -/
def strReplace (s old new : List Char) : List Char :=
  if old = [] then new ++ s.flatMap (fun c => c :: new)
  else strReplaceFuel old new s.length s

/-- The URL rewrite of `WebSocketProbe.http_probe` (line 298):
`self.uri.replace('ws://', 'http://').replace('wss://', 'https://')`. -/
def http_url (uri : List Char) : List Char :=
  strReplace (strReplace uri ("ws://".toList) ("http://".toList))
    ("wss://".toList) ("https://".toList)

/-- Modelled from the spec sentence of claim C5 ("differs from the target
URI only in the scheme — ws is rewritten to http and wss to https — with the
host, path and every other character of the URI left unchanged"): rewrite
only the leading scheme. -/
def schemeOnlyHttpUrl (uri : List Char) : List Char :=
  if startsWithPat ("wss://".toList) uri then "https://".toList ++ uri.drop 6
  else if startsWithPat ("ws://".toList) uri then "http://".toList ++ uri.drop 5
  else uri

/-! ### Auxiliary predicates and sample states used in the statements -/

/-- The stats invariant of the spec: every completed `connect` attempt was
counted as exactly one success or one failure. -/
def statsBalanced (s : Stats) : Prop :=
  s.successful_connections + s.failed_connections = s.connection_attempts

/-- Replies are only ever counted for frames that were sent. -/
def recvLeSent (s : Stats) : Prop :=
  s.messages_received ≤ s.messages_sent

/-- A session right after a successful `connect`: live handle, fresh stats.
Used as a concrete instantiation point. -/
def connectedProbe : WebSocketProbe :=
  { connection := some { closed := false }, stats := initStats }

/-- A concrete non-degenerate stats record (one successful trial with one
3 ms round trip).  Used as a concrete instantiation point. -/
def sampleStats : Stats :=
  { connection_attempts := 2
    successful_connections := 1
    failed_connections := 1
    messages_sent := 1
    messages_received := 1
    total_response_time := 3
    min_response_time := some 3
    max_response_time := 3 }

/-! ## Helper lemmas -/

theorem step_statsBalanced (p : WebSocketProbe) (op : Op)
    (h : statsBalanced p.stats) : statsBalanced (step p op).stats := by
  unfold statsBalanced at *
  cases op with
  | connectOp o => cases o <;> simp [step, connect] <;> omega
  | sendOp o =>
      cases hp : p.connection <;>
        cases o <;> simp [step, send_message, recordSent, recordReply, hp] <;> omega
  | pingOp ok => cases hp : p.connection <;> simp [step, ping_test, hp] <;> omega
  | closeOp => cases hp : p.connection <;> simp [step, close, hp] <;> omega

theorem foldl_statsBalanced :
    ∀ (ops : List Op) (p : WebSocketProbe), statsBalanced p.stats →
      statsBalanced (ops.foldl step p).stats := by
  intro ops
  induction ops with
  | nil => intro p h; exact h
  | cons op rest ih => intro p h; exact ih _ (step_statsBalanced p op h)

theorem step_recvLeSent (p : WebSocketProbe) (op : Op)
    (h : recvLeSent p.stats) : recvLeSent (step p op).stats := by
  unfold recvLeSent at *
  cases op with
  | connectOp o => cases o <;> simp [step, connect] <;> omega
  | sendOp o =>
      cases hp : p.connection <;>
        cases o <;> simp [step, send_message, recordSent, recordReply, hp] <;> omega
  | pingOp ok => cases hp : p.connection <;> simp [step, ping_test, hp] <;> omega
  | closeOp => cases hp : p.connection <;> simp [step, close, hp] <;> omega

theorem foldl_recvLeSent :
    ∀ (ops : List Op) (p : WebSocketProbe), recvLeSent p.stats →
      recvLeSent (ops.foldl step p).stats := by
  intro ops
  induction ops with
  | nil => intro p h; exact h
  | cons op rest ih => intro p h; exact ih _ (step_recvLeSent p op h)

/-! ## Claim theorems -/

/-- C1: for every sequence of operations on a session, after each completed
`connect()` call (indeed at every observation point)
`successfulConnections + failedConnections = connectionAttempts` holds; and a
single `connect` increments `connectionAttempts` exactly once and then
exactly one of `successfulConnections`/`failedConnections`, on every outcome
path. -/
theorem C1_connect_attempt_balance :
    (∀ ops : List Op, statsBalanced (runOps ops).stats) ∧
    (∀ (p : WebSocketProbe) (o : ConnectOutcome),
      (connect p o).2.1.stats.connection_attempts = p.stats.connection_attempts + 1 ∧
      (connect p o).2.1.stats.successful_connections
          + (connect p o).2.1.stats.failed_connections
        = p.stats.successful_connections + p.stats.failed_connections + 1) := by
  constructor
  · intro ops
    exact foldl_statsBalanced ops initProbe rfl
  · intro p o
    cases o <;> simp [connect] <;> omega

/-- C2: merging a `Stats` record with zero received messages (its
`min_response_time` still the infinity sentinel, its `max_response_time`
still 0) into a total leaves the total's min/max latency unchanged, while
every other counter is combined by summation.  (`0 ≤ t.max_response_time`
holds for every stats record the program produces: the field starts at 0 and
only ever grows by `max`.) -/
theorem C2_merge_zero_receive_identity (t r : Stats)
    (hrecv : r.messages_received = 0)
    (hmin : r.min_response_time = none)
    (hmax : r.max_response_time = 0)
    (ht : 0 ≤ t.max_response_time) :
    (mergeStats t r).min_response_time = t.min_response_time ∧
    (mergeStats t r).max_response_time = t.max_response_time ∧
    (mergeStats t r).connection_attempts
      = t.connection_attempts + r.connection_attempts ∧
    (mergeStats t r).successful_connections
      = t.successful_connections + r.successful_connections ∧
    (mergeStats t r).failed_connections
      = t.failed_connections + r.failed_connections ∧
    (mergeStats t r).messages_sent = t.messages_sent + r.messages_sent ∧
    (mergeStats t r).messages_received = t.messages_received ∧
    (mergeStats t r).total_response_time
      = t.total_response_time + r.total_response_time := by
  simp [mergeStats, hmin, hmax, hrecv, max_eq_left ht]

/-- Witness for C2 at a concrete pair: a non-degenerate total and a
zero-receive trial record. -/
theorem C2_merge_zero_receive_identity_witness :
    (mergeStats sampleStats initStats).min_response_time
      = sampleStats.min_response_time ∧
    (mergeStats sampleStats initStats).max_response_time
      = sampleStats.max_response_time ∧
    (mergeStats sampleStats initStats).connection_attempts
      = sampleStats.connection_attempts + initStats.connection_attempts ∧
    (mergeStats sampleStats initStats).successful_connections
      = sampleStats.successful_connections + initStats.successful_connections ∧
    (mergeStats sampleStats initStats).failed_connections
      = sampleStats.failed_connections + initStats.failed_connections ∧
    (mergeStats sampleStats initStats).messages_sent
      = sampleStats.messages_sent + initStats.messages_sent ∧
    (mergeStats sampleStats initStats).messages_received
      = sampleStats.messages_received ∧
    (mergeStats sampleStats initStats).total_response_time
      = sampleStats.total_response_time + initStats.total_response_time :=
  C2_merge_zero_receive_identity sampleStats initStats rfl rfl rfl (by norm_num [sampleStats])

/-- C7: `send_message` on a session whose `connection` attribute is absent
returns `None` immediately and leaves the whole session (every stats
counter included) unchanged. -/
theorem C7_send_not_connected (p : WebSocketProbe) (o : SendOutcome)
    (h : p.connection = none) :
    send_message p o = (none, p) := by
  simp [send_message, h]

/-- Witness for C7: a freshly constructed session. -/
theorem C7_send_not_connected_witness :
    send_message initProbe SendOutcome.timeout = (none, initProbe) :=
  C7_send_not_connected initProbe SendOutcome.timeout rfl

/-- C8: a `connect` rejected with an `InvalidStatus` exception carrying HTTP
status 200 extracts status code 200, returns failure, emits the
plain-HTTP-service hint, and increments `failed_connections` (never
`successful_connections`), for any shape of the `response` attribute. -/
theorem C8_invalid_status_200 (p : WebSocketProbe) (resp : Option Nat) :
    extractStatus { status_code := some 200, response_status := resp } = some 200 ∧
    (connect p (.invalidStatus { status_code := some 200, response_status := resp })).1
      = false ∧
    (connect p (.invalidStatus { status_code := some 200, response_status := resp })).2.2
      = [ConnectHint.plainHttpService] ∧
    (connect p (.invalidStatus
        { status_code := some 200, response_status := resp })).2.1.stats.failed_connections
      = p.stats.failed_connections + 1 ∧
    (connect p (.invalidStatus
        { status_code := some 200, response_status := resp })).2.1.stats.successful_connections
      = p.stats.successful_connections ∧
    (connect p (.invalidStatus
        { status_code := some 200, response_status := resp })).2.1.stats.connection_attempts
      = p.stats.connection_attempts + 1 := by
  refine ⟨rfl, ?_, ?_, ?_, ?_, ?_⟩ <;> simp [connect, extractStatus, statusHints]

theorem single_test_attempts (co : ConnectOutcome) (so : SendOutcome) :
    (single_test co so).connection_attempts = 1 := by
  cases co <;> cases so <;> rfl

theorem foldl_stressFold_ok_attempts :
    ∀ (trials : List (ConnectOutcome × SendOutcome)) (acc : Stats),
      ((trials.map (fun t => Except.ok (single_test t.1 t.2))).foldl
          stressFold acc).connection_attempts
        = acc.connection_attempts + trials.length := by
  intro trials
  induction trials with
  | nil => intro acc; simp
  | cons t rest ih =>
      intro acc
      simp only [List.map_cons, List.foldl_cons, stressFold]
      rw [ih]
      simp [mergeStats, single_test_attempts]
      omega

/-- C3 counterexample: with `count = 1` and the single trial raising an
unexpected failure, the code's aggregation skips the non-dict gather result
entirely: the merged stats show 0 connection attempts (not `N = 1`) and the
raising trial is not recorded in `failed_connections` either. -/
theorem C3_dropped_trial_counterexample :
    (aggregate [Except.error "RuntimeError"]).connection_attempts = 0 ∧
    (aggregate [Except.error "RuntimeError"]).connection_attempts ≠ 1 ∧
    (aggregate [Except.error "RuntimeError"]).failed_connections = 0 := by
  refine ⟨rfl, ?_, rfl⟩
  decide

/-- C3 (amended): a trial that raises an unexpected failure does not abort
sibling trials or the aggregation — the remaining results are still merged —
but its outcome is dropped entirely (no contribution to any counter,
`failedConnections` and `connectionAttempts` included), so the merged
`connectionAttempts` equals the number of non-raising trials, and equals `N`
exactly when no trial raised. -/
theorem C3_error_trials_skipped :
    (∀ (xs ys : List TrialResult) (m : String),
      aggregate (xs ++ Except.error m :: ys) = aggregate (xs ++ ys)) ∧
    (∀ trials : List (ConnectOutcome × SendOutcome),
      (aggregate (trials.map (fun t =>
          Except.ok (single_test t.1 t.2)))).connection_attempts
        = trials.length) := by
  constructor
  · intro xs ys m
    simp [aggregate, List.foldl_append, stressFold]
  · intro trials
    unfold aggregate
    rw [foldl_stressFold_ok_attempts]
    simp [initStats]

/-- C4 counterexample: `close()` does not reset the `connection` attribute;
after a successful `connect` followed by `close`, the handle is still
present (merely closed), contradicting "absent again after close()". -/
theorem C4_handle_after_close_counterexample :
    (close (connect initProbe ConnectOutcome.ok).2.1).connection
      = some { closed := true } ∧
    (close (connect initProbe ConnectOutcome.ok).2.1).connection ≠ none := by
  constructor
  · rfl
  · decide

/-- C4 (amended): the handle is absent on a constructed-idle session and
stays absent across failed `connect`s on a session that never connected; a
successful `connect` stores an open handle; `close()` closes the underlying
connection but keeps the handle stored, so after `close` the handle is
still present (now closed); and `close` is idempotent and safe on idle,
connected, or already-closed sessions. -/
theorem C4_handle_lifecycle :
    initProbe.connection = none ∧
    (∀ (p : WebSocketProbe) (o : ConnectOutcome),
      p.connection = none → o ≠ ConnectOutcome.ok →
      (connect p o).2.1.connection = none) ∧
    (∀ p : WebSocketProbe,
      (connect p ConnectOutcome.ok).2.1.connection = some { closed := false }) ∧
    (∀ (p : WebSocketProbe) (h : Handle), p.connection = some h →
      (close p).connection = some { closed := true }) ∧
    (∀ p : WebSocketProbe, close (close p) = close p) ∧
    (∀ p : WebSocketProbe, p.connection = none → close p = p) := by
  refine ⟨rfl, ?_, ?_, ?_, ?_, ?_⟩
  · intro p o hp ho
    cases o with
    | ok => exact absurd rfl ho
    | timeout => simp [connect, hp]
    | invalidStatus e => simp [connect, hp]
    | invalidHandshake u => simp [connect, hp]
    | otherError => simp [connect, hp]
  · intro p
    rfl
  · intro p h hp
    simp [close, hp]
  · intro p
    cases hp : p.connection <;> simp [close, hp]
  · intro p hp
    simp [close, hp]

/-- Witness for C4 (amended), discharging each hypothesis at a concrete
session. -/
theorem C4_handle_lifecycle_witness :
    (connect initProbe ConnectOutcome.timeout).2.1.connection = none ∧
    (close connectedProbe).connection = some { closed := true } ∧
    close initProbe = initProbe :=
  ⟨C4_handle_lifecycle.2.1 initProbe ConnectOutcome.timeout rfl (by decide),
   C4_handle_lifecycle.2.2.2.1 connectedProbe { closed := false } rfl,
   C4_handle_lifecycle.2.2.2.2.2 initProbe rfl⟩

/-- C6: on a session with a connection attribute present, a successful
`send_message` returns the measured latency, increments `messages_sent` and
`messages_received` by exactly one each, and folds the latency into the
cumulative sum, the min and the max; a reply-wait timeout returns `None`
and does not increment `messages_received`. -/
theorem C6_send_success_and_timeout (p : WebSocketProbe) (h : Handle)
    (rt : ℚ) (hp : p.connection = some h) :
    ((send_message p (.success rt)).1 = some rt ∧
     (send_message p (.success rt)).2.stats.messages_sent
       = p.stats.messages_sent + 1 ∧
     (send_message p (.success rt)).2.stats.messages_received
       = p.stats.messages_received + 1 ∧
     (send_message p (.success rt)).2.stats.total_response_time
       = p.stats.total_response_time + rt ∧
     (send_message p (.success rt)).2.stats.min_response_time
       = rtMin p.stats.min_response_time (some rt) ∧
     (send_message p (.success rt)).2.stats.max_response_time
       = max p.stats.max_response_time rt) ∧
    ((send_message p .timeout).1 = none ∧
     (send_message p .timeout).2.stats.messages_received
       = p.stats.messages_received) := by
  simp [send_message, hp, recordSent, recordReply]

/-- Witness for C6: a freshly connected session and a 1 ms round trip. -/
theorem C6_send_success_and_timeout_witness :
    ((send_message connectedProbe (.success 1)).1 = some 1 ∧
     (send_message connectedProbe (.success 1)).2.stats.messages_sent
       = connectedProbe.stats.messages_sent + 1 ∧
     (send_message connectedProbe (.success 1)).2.stats.messages_received
       = connectedProbe.stats.messages_received + 1 ∧
     (send_message connectedProbe (.success 1)).2.stats.total_response_time
       = connectedProbe.stats.total_response_time + 1 ∧
     (send_message connectedProbe (.success 1)).2.stats.min_response_time
       = rtMin connectedProbe.stats.min_response_time (some 1) ∧
     (send_message connectedProbe (.success 1)).2.stats.max_response_time
       = max connectedProbe.stats.max_response_time 1) ∧
    ((send_message connectedProbe .timeout).1 = none ∧
     (send_message connectedProbe .timeout).2.stats.messages_received
       = connectedProbe.stats.messages_received) :=
  C6_send_success_and_timeout connectedProbe { closed := false } 1 rfl

theorem continuousLoop_stopped (f : Nat → Bool) (fuel idx : Nat)
    (h : f idx = false) : continuousLoop f idx fuel = (0, 0) := by
  cases fuel with
  | zero => rfl
  | succ k => simp [continuousLoop, h]

/-- C9: in continuous mode, when the shared running flag reads true at the
first loop guard and false at every later read (it is cleared immediately
after the first iteration completes), the loop performs exactly one probe
cycle, never sleeps (so this holds in particular for `interval = 0`), and
the stats report is printed exactly once; the second guard read stops the
loop before another cycle begins. -/
theorem C9_continuous_single_cycle (f : Nat → Bool) (fuel : Nat)
    (h0 : f 0 = true) (h1 : ∀ n, 1 ≤ n → f n = false) (hf : 1 ≤ fuel) :
    continuous_probe f fuel
      = { cycles := 1, sleeps := 0, statsPrinted := 1 } := by
  obtain ⟨k, rfl⟩ : ∃ k, fuel = k + 1 := ⟨fuel - 1, by omega⟩
  have hstop : continuousLoop f 2 k = (0, 0) :=
    continuousLoop_stopped f k 2 (h1 2 (by omega))
  simp [continuous_probe, continuousLoop, h0, h1 1 (by omega), hstop]

/-- Witness for C9: the flag trace that is true only at the first read,
with fuel 3. -/
theorem C9_continuous_single_cycle_witness :
    continuous_probe (fun n => n == 0) 3
      = { cycles := 1, sleeps := 0, statsPrinted := 1 } :=
  C9_continuous_single_cycle (fun n => n == 0) 3 (by decide)
    (fun n hn => by simp; omega) (by omega)

/-- C10: `send_message` counts a frame as sent as soon as it is
transmitted, before the reply wait — a send whose reply wait times out
still increments `messages_sent` by one while leaving `messages_received`
alone — and consequently `messages_received ≤ messages_sent` holds after
every sequence of connect/send/ping/close operations on a single session. -/
theorem C10_received_le_sent :
    (∀ (p : WebSocketProbe) (h : Handle), p.connection = some h →
      (send_message p .timeout).2.stats.messages_sent
        = p.stats.messages_sent + 1 ∧
      (send_message p .timeout).2.stats.messages_received
        = p.stats.messages_received) ∧
    (∀ ops : List Op,
      (runOps ops).stats.messages_received ≤ (runOps ops).stats.messages_sent) := by
  constructor
  · intro p h hp
    simp [send_message, hp, recordSent]
  · intro ops
    exact foldl_recvLeSent ops initProbe (Nat.le_refl 0)

/-- Witness for C10: the timed-out send on a freshly connected session. -/
theorem C10_received_le_sent_witness :
    (send_message connectedProbe .timeout).2.stats.messages_sent
      = connectedProbe.stats.messages_sent + 1 ∧
    (send_message connectedProbe .timeout).2.stats.messages_received
      = connectedProbe.stats.messages_received :=
  C10_received_le_sent.1 connectedProbe { closed := false } rfl

theorem strReplaceFuel_of_not_occurs (old new : List Char) (fuel : Nat) :
    ∀ s : List Char, occursIn old s = false →
      strReplaceFuel old new fuel s = s := by
  induction fuel with
  | zero => intro s _; rfl
  | succ k ih =>
      intro s h
      cases s with
      | nil => rfl
      | cons c rest =>
          simp only [occursIn, Bool.or_eq_false_iff] at h
          simp [strReplaceFuel, h.1, ih rest h.2]

theorem strReplace_ws_head (r : List Char)
    (h : occursIn ("ws://".toList) r = false) :
    strReplace ("ws://".toList ++ r) ("ws://".toList) ("http://".toList)
      = "http://".toList ++ r := by
  have step : strReplace ("ws://".toList ++ r) ("ws://".toList) ("http://".toList)
      = "http://".toList
          ++ strReplaceFuel ("ws://".toList) ("http://".toList) (r.length + 4) r := rfl
  rw [step, strReplaceFuel_of_not_occurs _ _ _ _ h]

theorem strReplace_wss_head (r : List Char)
    (h : occursIn ("wss://".toList) r = false) :
    strReplace ("wss://".toList ++ r) ("wss://".toList) ("https://".toList)
      = "https://".toList ++ r := by
  have step : strReplace ("wss://".toList ++ r) ("wss://".toList) ("https://".toList)
      = "https://".toList
          ++ strReplaceFuel ("wss://".toList) ("https://".toList) (r.length + 5) r := rfl
  rw [step, strReplaceFuel_of_not_occurs _ _ _ _ h]

theorem strReplace_ws_skip_wss (r : List Char)
    (h : occursIn ("ws://".toList) r = false) :
    strReplace ("wss://".toList ++ r) ("ws://".toList) ("http://".toList)
      = "wss://".toList ++ r := by
  show strReplaceFuel ("ws://".toList) ("http://".toList)
      (("wss://".toList ++ r).length) ("wss://".toList ++ r)
    = "wss://".toList ++ r
  exact strReplaceFuel_of_not_occurs _ _ _ _ h

theorem strReplace_wss_skip_http (r : List Char)
    (h : occursIn ("wss://".toList) r = false) :
    strReplace ("http://".toList ++ r) ("wss://".toList) ("https://".toList)
      = "http://".toList ++ r := by
  show strReplaceFuel ("wss://".toList) ("https://".toList)
      (("http://".toList ++ r).length) ("http://".toList ++ r)
    = "http://".toList ++ r
  exact strReplaceFuel_of_not_occurs _ _ _ _ h

/-- C5 counterexample: `http_probe`'s rewrite uses Python `str.replace`,
which substitutes every occurrence of the pattern, not only the scheme.
For the target URI `ws://h/ws://a`, the issued URL is
`http://h/http://a` — its path is altered — rather than the
scheme-only rewrite `http://h/ws://a` the claim describes. -/
theorem C5_replace_everywhere_counterexample :
    http_url ("ws://h/ws://a".toList) = "http://h/http://a".toList ∧
    http_url ("ws://h/ws://a".toList) ≠ schemeOnlyHttpUrl ("ws://h/ws://a".toList) := by
  constructor
  · decide
  · decide

/-- C5 (amended): the URL `http_probe` issues its GET against is obtained
by replacing every occurrence of `ws://` with `http://` and then every
occurrence of `wss://` with `https://` throughout the URI; when those
substrings occur nowhere past the leading scheme, this differs from the
target URI only in the scheme, with every other character unchanged. -/
theorem C5_scheme_rewrite (r : List Char)
    (h1 : occursIn ("ws://".toList) r = false)
    (h2 : occursIn ("wss://".toList) r = false) :
    http_url ("ws://".toList ++ r) = "http://".toList ++ r ∧
    http_url ("wss://".toList ++ r) = "https://".toList ++ r := by
  constructor
  · unfold http_url
    rw [strReplace_ws_head r h1, strReplace_wss_skip_http r h2]
  · unfold http_url
    rw [strReplace_ws_skip_wss r h1, strReplace_wss_head r h2]

/-- Witness for C5 (amended) on a concrete clean URI remainder. -/
theorem C5_scheme_rewrite_witness :
    http_url ("ws://".toList ++ "localhost:9001/echo".toList)
      = "http://".toList ++ "localhost:9001/echo".toList ∧
    http_url ("wss://".toList ++ "localhost:9001/echo".toList)
      = "https://".toList ++ "localhost:9001/echo".toList :=
  C5_scheme_rewrite ("localhost:9001/echo".toList) (by decide) (by decide)

end WSProbe
